import Mathlib

/-!
Shallow embedding of the inpatient-display-pi repository's core protocol logic:
the Registration Clients (register-pi.js, register-pi-periodic.js) and the two
Command Agent variants (reboot-service.js, first variant reading the key from a
file, second variant using an environment variable with a hardcoded default).

JavaScript string truthiness (null/undefined and the empty string are falsy) is
modelled explicitly, since the source relies on it throughout.
-/

namespace InpatientPi

/-- JavaScript truthiness of a possibly-absent string: `undefined`/`null` and
the empty string are falsy. -/
def jsTruthy : Option String → Bool
  | none => false
  | some s => !s.isEmpty

/-- JavaScript `a || b` on possibly-absent strings (falsy values fall through). -/
def jsOr (a b : Option String) : Option String :=
  match a with
  | none => b
  | some s => if s.isEmpty then b else some s

/-- JavaScript `a || b` where the fallback is a concrete string. -/
def jsOrStr (a : Option String) (b : String) : String :=
  match a with
  | none => b
  | some s => if s.isEmpty then b else s

/-- Strip leading and trailing whitespace from a character list. -/
def trimChars (l : List Char) : List Char :=
  ((l.dropWhile Char.isWhitespace).reverse.dropWhile Char.isWhitespace).reverse

/-- JavaScript `String.prototype.trim`: strip whitespace at both ends. -/
def jsTrim (s : String) : String := String.mk (trimChars s.toList)

/-- JavaScript `s.split(' ')[0]`: the characters before the first space. -/
def firstSpaceToken (s : String) : String :=
  String.mk (s.toList.takeWhile (fun c => !(c == ' ')))

/-- Filesystem state: each path either holds a file with some contents or is
absent (reads of absent paths throw in the source and are caught, yielding
`null`). -/
def Fs : Type := String → Option String

/-- Default credential-file path used by both the Command Agent (first variant)
and the one-shot Registration Client: `/etc/inpatient-display/api-key`. -/
def apiKeyPath : String := "/etc/inpatient-display/api-key"

/-- Legacy systemd unit path parsed by the periodic Registration Client and by
the one-shot client's fallback: `/etc/systemd/system/inpatient-reboot.service`. -/
def servicePath : String := "/etc/systemd/system/inpatient-reboot.service"

/-- Character class `[a-f0-9]` of the regex `REBOOT_API_KEY=([a-f0-9]+)`. -/
def isHexLower (c : Char) : Bool :=
  (decide (97 ≤ c.toNat) && decide (c.toNat ≤ 102)) ||
  (decide (48 ≤ c.toNat) && decide (c.toNat ≤ 57))

/-- The literal part of the regex `REBOOT_API_KEY=([a-f0-9]+)`. -/
def keyLit : List Char := "REBOOT_API_KEY=".toList

/-- First match of the regex `REBOOT_API_KEY=([a-f0-9]+)` in a character list:
scan left to right; where the literal matches and at least one `[a-f0-9]`
character follows, return the maximal such run (the capture group). -/
def findKey : List Char → Option String
  | [] => none
  | c :: rest =>
    if keyLit.isPrefixOf (c :: rest) then
      let run := ((c :: rest).drop keyLit.length).takeWhile isHexLower
      if run.isEmpty then findKey rest else some (String.mk run)
    else findKey rest

/-- `getApiKey` of register-pi-periodic.js: read the systemd service file and
extract the first `REBOOT_API_KEY=([a-f0-9]+)` match; `null` on read error or
no match. -/
def periodicGetApiKey (fs : Fs) : Option String :=
  match fs servicePath with
  | none => none
  | some content => findKey content.toList

/-- `getApiKey` of reboot-service.js (first variant): if the key file exists,
return its trimmed contents, else `null`. `path` is the resolved
`API_KEY_FILE` (environment override or the default). -/
def agentGetApiKey (path : String) (fs : Fs) : Option String :=
  match fs path with
  | some content => some (jsTrim content)
  | none => none

/-- Resolution of `API_KEY_FILE = process.env.REBOOT_API_KEY_FILE || default`
in the first Command Agent variant. -/
def apiKeyFilePath (envFile : Option String) : String :=
  jsOrStr envFile apiKeyPath

/-- Fallback chain of register-pi.js `getApiKey` when no (truthy) command-line
argument is given: consult the key file, then the legacy service unit. The
second component records which paths were consulted. -/
def oneShotFallback (fs : Fs) : Option String × List String :=
  match fs apiKeyPath with
  | some content => (some (jsTrim content), [apiKeyPath])
  | none =>
    match fs servicePath with
    | none => (none, [apiKeyPath, servicePath])
    | some content => (findKey content.toList, [apiKeyPath, servicePath])

/-- `getApiKey` of register-pi.js, instrumented with the list of filesystem
paths it consults: a truthy `process.argv[2]` short-circuits; an absent or
empty argument falls through to the file-based chain. -/
def oneShotGetApiKeyTraced (argv2 : Option String) (fs : Fs) :
    Option String × List String :=
  match argv2 with
  | some a => if a.isEmpty then oneShotFallback fs else (some a, [])
  | none => oneShotFallback fs

/-- `getApiKey` of register-pi.js (result only). -/
def oneShotGetApiKey (argv2 : Option String) (fs : Fs) : Option String :=
  (oneShotGetApiKeyTraced argv2 fs).1

/-- Outputs of the two `exec` calls in `getSystemInfo` (identical in both
clients): `hostnameOut = none` models the `hostname` command failing;
`ipOut = none` models an errored `hostname -I` (whose stdout is then empty,
hence falsy, just like `some ""`). -/
structure ExecOut where
  hostnameOut : Option String
  ipOut : Option String
deriving DecidableEq

/-- `getSystemInfo` of both clients: on `hostname` failure both fields are the
placeholder `unknown`; otherwise the IP is the first space-separated token of
the trimmed `hostname -I` output when that output is truthy, else `unknown`. -/
def getSystemInfo (e : ExecOut) : String × String :=
  match e.hostnameOut with
  | none => ("unknown", "unknown")
  | some h =>
    let ip :=
      match e.ipOut with
      | none => "unknown"
      | some out => if out.isEmpty then "unknown" else firstSpaceToken (jsTrim out)
    (jsTrim h, ip)

/-- Result of `response.json()`: a parse failure (which throws) or a parsed
object whose `status` field may be absent. -/
inductive JsonBody
  | malformed
  | parsed (status : Option String)
deriving DecidableEq

/-- Result of the `fetch` call: a network error (the promise rejects) or an
HTTP response with `response.ok` (2xx) flag and a body. -/
inductive FetchResult
  | netError
  | response (ok : Bool) (body : JsonBody)
deriving DecidableEq

/-- Classification of the registry's `status` field performed by both clients
(`result.status === 'new'` / `=== 'updated'`). -/
inductive RegClass
  | isNew
  | isUpdated
  | other
deriving DecidableEq

/-- The `status`-field classification used in both clients' logging. -/
def classify : Option String → RegClass
  | some s => if s = "new" then .isNew else if s = "updated" then .isUpdated else .other
  | none => .other

/-- Outcome of one invocation of `registerWithServer` in register-pi-periodic.js,
following its control flow: missing key and unknown IP abort before any HTTP
call; a network error, a non-2xx response (`!response.ok` throws) and a JSON
parse failure are all caught and yield failure; a parsed 2xx body succeeds. -/
inductive PeriodicOutcome
  | noKey
  | noIp
  | netFailed
  | httpFailed
  | badJson
  | succeeded (c : RegClass)
deriving DecidableEq

/-- `registerWithServer` of register-pi-periodic.js as a function of the
filesystem, the exec outputs and the fetch result. -/
def periodicOutcome (fs : Fs) (e : ExecOut) (f : FetchResult) : PeriodicOutcome :=
  if !(jsTruthy (periodicGetApiKey fs)) then .noKey
  else if (getSystemInfo e).2 = "unknown" then .noIp
  else
    match f with
    | .netError => .netFailed
    | .response ok body =>
      if !ok then .httpFailed
      else
        match body with
        | .malformed => .badJson
        | .parsed s => .succeeded (classify s)

/-- Whether `registerWithServer` returned `true` in register-pi-periodic.js. -/
def PeriodicOutcome.isSuccess : PeriodicOutcome → Bool
  | .succeeded _ => true
  | _ => false

/-- Whether the periodic client reaches its `fetch` call: it requires a truthy
key and an IP different from the `unknown` placeholder. -/
def periodicSends (fs : Fs) (e : ExecOut) : Bool :=
  jsTruthy (periodicGetApiKey fs) && !((getSystemInfo e).2 == "unknown")

/-- Process exit status of register-pi-periodic.js `main`: `process.exit(1)`
when `registerWithServer` returned `false`, otherwise the process drains and
exits `0`. -/
def periodicExitCode (fs : Fs) (e : ExecOut) (f : FetchResult) : Nat :=
  if (periodicOutcome fs e f).isSuccess then 0 else 1

/-- The Device Identity Report `{apiKey, hostname, ip}` POSTed to the registry. -/
structure Report where
  apiKey : String
  hostname : String
  ip : String
deriving DecidableEq

/-- The report the one-shot register-pi.js sends, if any: it aborts only on a
falsy key and performs the `fetch` with whatever `getSystemInfo` produced,
including the `unknown` placeholder (it has no IP guard). -/
def oneShotReport (argv2 : Option String) (fs : Fs) (e : ExecOut) : Option Report :=
  match oneShotGetApiKey argv2 fs with
  | none => none
  | some k =>
    if k.isEmpty then none
    else some ⟨k, (getSystemInfo e).1, (getSystemInfo e).2⟩

/-- Outcome of one invocation of register-pi.js `registerWithServer`: it never
inspects `response.ok`, so any response with a parseable body is classified
from the body's `status` field, 2xx or not. -/
inductive OneShotOutcome
  | noKey
  | netFailed
  | badJson
  | done (c : RegClass)
deriving DecidableEq

/-- `registerWithServer` of register-pi.js as a function of its inputs. -/
def oneShotOutcome (argv2 : Option String) (fs : Fs) (f : FetchResult) : OneShotOutcome :=
  if !(jsTruthy (oneShotGetApiKey argv2 fs)) then .noKey
  else
    match f with
    | .netError => .netFailed
    | .response _ body =>
      match body with
      | .malformed => .badJson
      | .parsed s => .done (classify s)

/-- Process exit status of register-pi.js: the script never calls
`process.exit`, and `registerWithServer` catches every rejection, so the node
process always drains and exits `0`, whatever happened. -/
def oneShotExitCode (_argv2 : Option String) (_fs : Fs) (_f : FetchResult) : Nat := 0

/-- Privileged host operations the Command Agents can run via `exec`. -/
inductive HostAction
  | reboot
  | shutdown
deriving DecidableEq

/-- Response of a privileged Command Agent endpoint: the HTTP status sent back
and the list of host actions scheduled via `setTimeout`, each with its delay in
milliseconds. -/
structure CmdResponse where
  status : Nat
  scheduled : List (Nat × HostAction)
deriving DecidableEq

/-- Decision of `authenticateApiKey` in the first Command Agent variant. -/
inductive AuthV1
  | noKey
  | unauthorized
  | authorized
deriving DecidableEq

/-- `authenticateApiKey` of the first variant: the provided key is
`req.headers['x-api-key'] || req.query.apiKey`; a falsy expected key (absent
file or blank contents) yields the 500 branch; a falsy or mismatched provided
key yields the 401 branch. The expected key is loaded from the file on every
request. -/
def authV1 (path : String) (h q : Option String) (fs : Fs) : AuthV1 :=
  match agentGetApiKey path fs with
  | none => .noKey
  | some expected =>
    if expected.isEmpty then .noKey
    else
      match jsOr h q with
      | none => .unauthorized
      | some p => if p = expected then .authorized else .unauthorized

/-- `POST /reboot` of the first variant: middleware result 500/401 with no
scheduled action, or a 200 acknowledgement plus a reboot scheduled after a
1000 ms `setTimeout`. -/
def handleRebootV1 (path : String) (h q : Option String) (fs : Fs) : CmdResponse :=
  match authV1 path h q fs with
  | .noKey => ⟨500, []⟩
  | .unauthorized => ⟨401, []⟩
  | .authorized => ⟨200, [(1000, .reboot)]⟩

/-- Body of the first variant's `GET /health` response. -/
structure HealthV1 where
  status : Nat
  apiKeyConfigured : Bool
deriving DecidableEq

/-- `GET /health` of the first variant: always 200, with
`apiKeyConfigured: !!getApiKey()`. -/
def healthV1 (path : String) (fs : Fs) : HealthV1 :=
  ⟨200, jsTruthy (agentGetApiKey path fs)⟩

/-- The hardcoded fallback credential of the second Command Agent variant. -/
def defaultRebootKey : String := "your-reboot-api-key"

/-- `API_KEY = process.env.REBOOT_API_KEY || 'your-reboot-api-key'` of the
second variant. -/
def apiKeyV2 (env : Option String) : String :=
  jsOrStr env defaultRebootKey

/-- `authenticate` of the second variant: only the `x-api-key` header is read,
and the request passes exactly when it strictly equals `API_KEY`. -/
def authV2 (env header : Option String) : Bool :=
  header == some (apiKeyV2 env)

/-- `POST /reboot` of the second variant: 401 on auth failure, else a 200
acknowledgement plus a reboot scheduled after a 10000 ms `setTimeout`. -/
def handleRebootV2 (env header : Option String) : CmdResponse :=
  if authV2 env header then ⟨200, [(10000, .reboot)]⟩ else ⟨401, []⟩

/-- `POST /shutdown` of the second variant: same contract with a shutdown
scheduled after 10000 ms. -/
def handleShutdownV2 (env header : Option String) : CmdResponse :=
  if authV2 env header then ⟨200, [(10000, .shutdown)]⟩ else ⟨401, []⟩

/-- The second variant's `GET /api-key` route is registered without the
`authenticate` middleware. -/
def apiKeyRouteV2HasAuth : Bool := false

/-- `GET /api-key` of the second variant: responds 200 with
`{apiKey: process.env.REBOOT_API_KEY || API_KEY}` in plaintext. -/
def handleApiKeyV2 (env : Option String) : Nat × String :=
  (200, jsOrStr env (apiKeyV2 env))

/-- Observable events of a privileged request: sending the HTTP response, and
a host action firing. -/
inductive AgentEvent
  | respond (status : Nat)
  | execHost (a : HostAction)
deriving DecidableEq

/-- Timeline of a privileged request, in milliseconds from the moment the
handler runs: `res.json` is synchronous, so the response is written at time 0,
and each `setTimeout` callback fires after its delay. -/
def timeline (r : CmdResponse) : List (Nat × AgentEvent) :=
  (0, .respond r.status) :: r.scheduled.map (fun p => (p.1, .execHost p.2))

/-- Concrete filesystem: no relevant files present. -/
def fsEmpty : Fs := fun _ => none

/-- Concrete filesystem: the credential file holds `abc`, no service unit. -/
def fsKeyFile : Fs :=
  fun p => if p = apiKeyPath then some "abc" else none

/-- Concrete filesystem: the legacy service unit carries `REBOOT_API_KEY=abc`
while the credential file holds `def` (two distinct configured values). -/
def fsBoth : Fs :=
  fun p =>
    if p = servicePath then some "Environment=REBOOT_API_KEY=abc\n"
    else if p = apiKeyPath then some "def" else none

/-- Helper: with a truthy expected key `k` on file, `authenticateApiKey`
reduces to the comparison of the provided key against `k`. -/
theorem authV1_char (path : String) (h q : Option String) (fs : Fs) (k : String)
    (hk : agentGetApiKey path fs = some k) (hne : k.isEmpty = false) :
    authV1 path h q fs =
      (match jsOr h q with
       | none => .unauthorized
       | some p => if p = k then .authorized else .unauthorized) := by
  unfold authV1
  rw [hk]
  simp [hne]

/-- Helper: a provided key differing from the truthy expected key is
unauthorized in the first variant. -/
theorem authV1_eq_unauthorized (path : String) (h q : Option String) (fs : Fs)
    (k : String)
    (hk : agentGetApiKey path fs = some k) (hne : k.isEmpty = false)
    (hmis : jsOr h q ≠ some k) : authV1 path h q fs = .unauthorized := by
  rw [authV1_char path h q fs k hk hne]
  cases hjq : jsOr h q with
  | none => rfl
  | some p =>
    have hpk : p ≠ k := fun hpk => hmis (by rw [hjq, hpk])
    simp [hpk]

/-- Helper: a provided key equal to the truthy expected key is authorized in
the first variant. -/
theorem authV1_eq_authorized (path : String) (h q : Option String) (fs : Fs)
    (k : String)
    (hk : agentGetApiKey path fs = some k) (hne : k.isEmpty = false)
    (hp : jsOr h q = some k) : authV1 path h q fs = .authorized := by
  rw [authV1_char path h q fs k hk hne, hp]
  simp

/-- Claim C1: for every inbound POST /reboot or /shutdown request whose
credential (x-api-key header or query parameter) is absent or differs from the
configured credential, each Command Agent variant responds 401 and schedules
no host reboot/shutdown action. (The first variant defines only /reboot; the
second defines both. For the first variant the configured credential is the
truthy key `k` on file; for the second it is `API_KEY = apiKeyV2 env`.) -/
theorem c1_unauthorized_rejected (path : String) (h q : Option String) (fs : Fs)
    (k : String) (env header : Option String)
    (hk : agentGetApiKey path fs = some k) (hne : k.isEmpty = false)
    (hmis : jsOr h q ≠ some k)
    (hmis2 : header ≠ some (apiKeyV2 env)) :
    handleRebootV1 path h q fs = ⟨401, []⟩ ∧
    handleRebootV2 env header = ⟨401, []⟩ ∧
    handleShutdownV2 env header = ⟨401, []⟩ := by
  refine ⟨?_, ?_, ?_⟩
  · unfold handleRebootV1
    rw [authV1_eq_unauthorized path h q fs k hk hne hmis]
  · unfold handleRebootV2 authV2
    simp [hmis2]
  · unfold handleShutdownV2 authV2
    simp [hmis2]

/-- Witness for C1: credential file holds `abc`; a request with no credential
to the first variant and a request with credential `wrong` to the second both
get 401 with nothing scheduled. -/
theorem c1_witness :
    agentGetApiKey apiKeyPath fsKeyFile = some "abc" ∧
    handleRebootV1 apiKeyPath none none fsKeyFile = ⟨401, []⟩ ∧
    handleRebootV2 none (some "wrong") = ⟨401, []⟩ ∧
    handleShutdownV2 none (some "wrong") = ⟨401, []⟩ :=
  And.intro (by decide)
    (c1_unauthorized_rejected apiKeyPath none none fsKeyFile "abc" none
      (some "wrong") (by decide) (by decide) (by decide) (by decide))

/-- Counterexample to C2: the second Command Agent variant never reads a
credential file (its authentication takes no filesystem input at all), so the
state with no credential file present applies to it; yet with no environment
key configured, a request with a wrong credential receives 401, not 500. -/
theorem c2_counterexample :
    (handleRebootV2 none (some "x")).status = 401 ∧
    (handleRebootV2 none (some "x")).status ≠ 500 := by decide

/-- Claim C2 amended: for the FIRST Command Agent variant with no credential
file present, GET /health returns 200 with apiKeyConfigured = false, and POST
/reboot (its only privileged endpoint) returns 500 — never 401 — for every
request, whatever credential the request carries. -/
theorem c2_amended_no_key_500 (h q : Option String) (fs : Fs)
    (hnone : fs apiKeyPath = none) :
    healthV1 apiKeyPath fs = ⟨200, false⟩ ∧
    handleRebootV1 apiKeyPath h q fs = ⟨500, []⟩ ∧
    (handleRebootV1 apiKeyPath h q fs).status ≠ 401 := by
  have hag : agentGetApiKey apiKeyPath fs = none := by
    unfold agentGetApiKey
    rw [hnone]
  have hauth : authV1 apiKeyPath h q fs = .noKey := by
    unfold authV1
    rw [hag]
  refine ⟨?_, ?_, ?_⟩
  · unfold healthV1
    rw [hag]
    rfl
  · unfold handleRebootV1
    rw [hauth]
  · unfold handleRebootV1
    rw [hauth]
    decide

/-- Witness for C2 (amended): empty filesystem, request carrying credential
`guess`. -/
theorem c2_witness :
    healthV1 apiKeyPath fsEmpty = ⟨200, false⟩ ∧
    handleRebootV1 apiKeyPath (some "guess") none fsEmpty = ⟨500, []⟩ ∧
    (handleRebootV1 apiKeyPath (some "guess") none fsEmpty).status ≠ 401 :=
  c2_amended_no_key_500 (some "guess") none fsEmpty rfl

/-- Counterexample to C3: with no environment key, the second Command Agent
variant authorizes a request carrying the hardcoded default
`your-reboot-api-key` and schedules the reboot, even on a filesystem with no
credential file at all — the comparison is against a hardcoded default, not
against a value freshly loaded from the Credential Store. -/
theorem c3_counterexample :
    apiKeyV2 none = defaultRebootKey ∧
    handleRebootV2 none (some defaultRebootKey) = ⟨200, [(10000, .reboot)]⟩ ∧
    agentGetApiKey apiKeyPath fsEmpty = none := by decide

/-- Claim C3 amended: in the FIRST Command Agent variant, every privileged
request is compared byte-for-byte against the value freshly loaded from the
credential file at the time of that request (for any filesystem state with a
truthy key `k` on file, the request succeeds exactly when the provided
credential equals `k`, and is otherwise rejected); the second variant instead
compares against an environment value or the hardcoded default. -/
theorem c3_amended_v1_fresh_comparison (path : String) (fs : Fs) (p k : String)
    (hk : agentGetApiKey path fs = some k) (hne : k.isEmpty = false) :
    ((handleRebootV1 path (some p) none fs).status = 200 ↔ p = k) ∧
    ((handleRebootV1 path (some p) none fs).status = 200 ∨
     (handleRebootV1 path (some p) none fs).status = 401) := by
  by_cases hpk : p = k
  · subst hpk
    have hauth : authV1 path (some p) none fs = .authorized := by
      apply authV1_eq_authorized path (some p) none fs p hk hne
      unfold jsOr
      simp [hne]
    unfold handleRebootV1
    rw [hauth]
    simp
  · have hauth : authV1 path (some p) none fs = .unauthorized := by
      apply authV1_eq_unauthorized path (some p) none fs k hk hne
      unfold jsOr
      by_cases hpe : p.isEmpty
      · simp [hpe]
      · simp only [hpe]
        simp [hpk]
    unfold handleRebootV1
    rw [hauth]
    simp [hpk]

/-- Witness for C3 (amended): file holds `abc`; a request with `abc` is the
one that succeeds. -/
theorem c3_witness :
    ((handleRebootV1 apiKeyPath (some "abc") none fsKeyFile).status = 200 ↔
      ("abc" : String) = "abc") ∧
    ((handleRebootV1 apiKeyPath (some "abc") none fsKeyFile).status = 200 ∨
     (handleRebootV1 apiKeyPath (some "abc") none fsKeyFile).status = 401) :=
  c3_amended_v1_fresh_comparison apiKeyPath fsKeyFile "abc" "abc"
    (by decide) (by decide)

/-- Claim C4: an authenticated, successful POST /reboot sends its 200
acknowledgement at time 0 — before the host reboot, which is only a deferred
action scheduled to fire after the configured delay (1000 ms in the first
variant, 10000 ms in the second), so the response latency excludes the
delay. -/
theorem c4_ack_before_host_action (path : String) (h q : Option String)
    (fs : Fs) (k : String) (env : Option String)
    (hk : agentGetApiKey path fs = some k) (hne : k.isEmpty = false)
    (hp : jsOr h q = some k) :
    timeline (handleRebootV1 path h q fs) =
      [(0, .respond 200), (1000, .execHost .reboot)] ∧
    (0 : Nat) < 1000 ∧
    timeline (handleRebootV2 env (some (apiKeyV2 env))) =
      [(0, .respond 200), (10000, .execHost .reboot)] ∧
    (0 : Nat) < 10000 := by
  have hauth : authV1 path h q fs = .authorized :=
    authV1_eq_authorized path h q fs k hk hne hp
  refine ⟨?_, by decide, ?_, by decide⟩
  · unfold handleRebootV1
    rw [hauth]
    rfl
  · unfold handleRebootV2 authV2
    simp [timeline]

/-- Witness for C4: credential file holds `abc` and the request carries it. -/
theorem c4_witness :
    timeline (handleRebootV1 apiKeyPath (some "abc") none fsKeyFile) =
      [(0, .respond 200), (1000, .execHost .reboot)] ∧
    (0 : Nat) < 1000 ∧
    timeline (handleRebootV2 none (some (apiKeyV2 none))) =
      [(0, .respond 200), (10000, .execHost .reboot)] ∧
    (0 : Nat) < 10000 :=
  c4_ack_before_host_action apiKeyPath (some "abc") none fsKeyFile "abc" none
    (by decide) (by decide) (by decide)

/-- Claim C5, evaluated at the failing input: with the credential file holding
`abc` and the `hostname` command failing (so no non-loopback address is
resolvable and both identity facts are the `unknown` placeholder), the
one-shot register-pi.js still performs its HTTP call, sending a Device
Identity Report with ip = `unknown`; the periodic client, by contrast, guards
on the placeholder and does not reach its fetch in the same situation. -/
theorem c5_unknown_ip_report_sent :
    oneShotReport none fsKeyFile ⟨none, none⟩ =
      some ⟨"abc", "unknown", "unknown"⟩ ∧
    periodicSends fsBoth ⟨none, none⟩ = false := by decide

/-- Counterexample to C6: on a filesystem where the legacy systemd unit
carries `REBOOT_API_KEY=abc` while `/etc/inpatient-display/api-key` holds
`def`, the periodic Registration Client (which parses the systemd unit) and
the Command Agent (which reads the key file) obtain different credentials —
they do not read the same well-known path. -/
theorem c6_counterexample :
    periodicGetApiKey fsBoth = some "abc" ∧
    agentGetApiKey apiKeyPath fsBoth = some "def" ∧
    periodicGetApiKey fsBoth ≠ agentGetApiKey apiKeyPath fsBoth := by decide

/-- Claim C6 amended: the Command Agent (first variant, default path) and the
one-shot Registration Client (no command-line argument) do read the same
well-known path `/etc/inpatient-display/api-key`, so whenever that file exists
their credential values are identical; the periodic Registration Client
instead parses the legacy systemd unit, so its value can differ. -/
theorem c6_amended_agent_oneshot_same_path (fs : Fs) (c : String)
    (hc : fs apiKeyPath = some c) :
    oneShotGetApiKey none fs = some (jsTrim c) ∧
    agentGetApiKey apiKeyPath fs = some (jsTrim c) ∧
    oneShotGetApiKey none fs = agentGetApiKey apiKeyPath fs := by
  unfold oneShotGetApiKey oneShotGetApiKeyTraced oneShotFallback agentGetApiKey
  rw [hc]
  exact ⟨rfl, rfl, rfl⟩

/-- Witness for C6 (amended): the key file holds `abc`. -/
theorem c6_witness :
    oneShotGetApiKey none fsKeyFile = some (jsTrim "abc") ∧
    agentGetApiKey apiKeyPath fsKeyFile = some (jsTrim "abc") ∧
    oneShotGetApiKey none fsKeyFile = agentGetApiKey apiKeyPath fsKeyFile :=
  c6_amended_agent_oneshot_same_path fsKeyFile "abc" (by decide)

/-- Counterexample to C7: the one-shot register-pi.js, on a failed attempt
(here: key present via the command line but the fetch rejects with a network
error), still exits with status 0 — it never calls process.exit. -/
theorem c7_counterexample :
    oneShotOutcome (some "k") fsEmpty .netError = .netFailed ∧
    oneShotExitCode (some "k") fsEmpty .netError = 0 := by decide

/-- Claim C7 amended: the PERIODIC Registration Client exits 0 exactly when
the attempt succeeded — a truthy credential was found, the IP was not the
`unknown` placeholder, and the registry answered 2xx with a parseable JSON
body — and exits 1 on every failed attempt (credential missing, unknown IP,
network error, non-2xx response, malformed body); the one-shot client always
exits 0. -/
theorem c7_amended_exit_codes (fs : Fs) (e : ExecOut) (f : FetchResult)
    (a2 : Option String) (fs2 : Fs) (f2 : FetchResult) :
    (periodicExitCode fs e f = 0 ∨ periodicExitCode fs e f = 1) ∧
    (periodicExitCode fs e f = 0 ↔
      jsTruthy (periodicGetApiKey fs) = true ∧
      (getSystemInfo e).2 ≠ "unknown" ∧
      ∃ s, f = .response true (.parsed s)) ∧
    oneShotExitCode a2 fs2 f2 = 0 := by
  refine ⟨?_, ?_, rfl⟩
  · unfold periodicExitCode
    split
    · exact Or.inl rfl
    · exact Or.inr rfl
  · unfold periodicExitCode periodicOutcome
    by_cases hkey : jsTruthy (periodicGetApiKey fs) = true
    · by_cases hip : (getSystemInfo e).2 = "unknown"
      · simp [hkey, hip, PeriodicOutcome.isSuccess]
      · cases f with
        | netError =>
          simp [hkey, hip, PeriodicOutcome.isSuccess]
        | response ok body =>
          cases ok with
          | false => simp [hkey, hip, PeriodicOutcome.isSuccess]
          | true =>
            cases body with
            | malformed => simp [hkey, hip, PeriodicOutcome.isSuccess]
            | parsed s =>
              simp [hkey, hip, PeriodicOutcome.isSuccess]
    · simp [hkey, PeriodicOutcome.isSuccess]

/-- Counterexample to C8: the one-shot register-pi.js never inspects
`response.ok`, so a non-2xx response whose JSON body says `status: "new"` is
classified as a successful new registration rather than treated as a failed
outcome. -/
theorem c8_counterexample :
    oneShotOutcome (some "k") fsEmpty
      (.response false (.parsed (some "new"))) = .done .isNew := by decide

/-- Claim C8 amended: the PERIODIC Registration Client treats every non-2xx
response as a failed outcome, and on a 2xx response classifies the outcome as
new/updated by the JSON body's status field; the one-shot client skips the
status check. -/
theorem c8_amended_periodic_http_classification (fs : Fs) (e : ExecOut)
    (b : JsonBody) (s : Option String)
    (hkey : jsTruthy (periodicGetApiKey fs) = true)
    (hip : (getSystemInfo e).2 ≠ "unknown") :
    periodicOutcome fs e (.response false b) = .httpFailed ∧
    (periodicOutcome fs e (.response false b)).isSuccess = false ∧
    periodicOutcome fs e (.response true (.parsed s)) = .succeeded (classify s) ∧
    classify (some "new") = .isNew ∧
    classify (some "updated") = .isUpdated := by
  unfold periodicOutcome
  refine ⟨?_, ?_, ?_, by decide, by decide⟩
  · simp [hkey, hip]
  · simp [hkey, hip, PeriodicOutcome.isSuccess]
  · simp [hkey, hip]

/-- Witness for C8 (amended): the service unit configures key `abc`, the
device resolves hostname `pi` and address `10.0.0.5`. -/
theorem c8_witness :
    periodicOutcome fsBoth ⟨some "pi", some "10.0.0.5 "⟩
        (.response false .malformed) = .httpFailed ∧
    (periodicOutcome fsBoth ⟨some "pi", some "10.0.0.5 "⟩
        (.response false .malformed)).isSuccess = false ∧
    periodicOutcome fsBoth ⟨some "pi", some "10.0.0.5 "⟩
        (.response true (.parsed (some "updated"))) =
      .succeeded (classify (some "updated")) ∧
    classify (some "new") = .isNew ∧
    classify (some "updated") = .isUpdated :=
  c8_amended_periodic_http_classification fsBoth ⟨some "pi", some "10.0.0.5 "⟩
    .malformed (some "updated") (by decide) (by decide)

/-- Claim C9: the second Command Agent variant registers GET /api-key with no
authentication middleware, and for every environment configuration it responds
200 with the configured credential (`API_KEY`) in plaintext in the body. -/
theorem c9_api_key_disclosed (env : Option String) :
    apiKeyRouteV2HasAuth = false ∧
    handleApiKeyV2 env = (200, apiKeyV2 env) := by
  refine ⟨rfl, ?_⟩
  unfold handleApiKeyV2 apiKeyV2 jsOrStr
  cases env with
  | none => rfl
  | some s =>
    by_cases hs : s.isEmpty
    · simp [hs]
    · simp [hs]

/-- Counterexample to C10: with an empty string as first command-line argument
(present but falsy in JavaScript), getApiKey of register-pi.js falls through
to the credential file, consults it, and returns the file's value rather than
the argument. -/
theorem c10_counterexample :
    oneShotGetApiKeyTraced (some "") fsKeyFile = (some "abc", [apiKeyPath]) ∧
    (some "abc" : Option String) ≠ some "" := by decide

/-- Claim C10 amended: if a NON-EMPTY (truthy) first command-line argument is
given, getApiKey of register-pi.js returns it and consults no filesystem path
at all: neither the credential file nor the legacy service-unit fallback; an
empty argument is treated as absent. -/
theorem c10_amended_nonempty_arg (a : String) (fs : Fs)
    (ha : a.isEmpty = false) :
    oneShotGetApiKeyTraced (some a) fs = (some a, []) := by
  unfold oneShotGetApiKeyTraced
  simp [ha]

/-- Witness for C10 (amended): argument `abc` on an empty filesystem. -/
theorem c10_witness :
    oneShotGetApiKeyTraced (some "abc") fsEmpty = (some "abc", []) :=
  c10_amended_nonempty_arg "abc" fsEmpty (by decide)

end InpatientPi
